import Mathlib

set_option linter.unusedVariables false

/-!
Verification of the awsome-skills generator scripts.

The scripts are Python CLI code generators.  We embed the relevant parts
shallowly:

* Python strings handled by `GoTypeMapper.map_type` are modelled as lists of
  Unicode codepoints (`List Nat`); `str.lower()` is modelled on the ASCII
  range (the static type table is pure ASCII) and `str.strip()` strips the
  ASCII whitespace characters.
* the filesystem is modelled as the set of existing directories (paths are
  lists of name segments); `Path.mkdir(parents=True, exist_ok=True)` adds all
  prefixes of a path and a file write succeeds exactly when the parent
  directory exists.
* template bodies that no claim inspects are modelled as distinct opaque-free
  inductive tags; template text that claims do inspect (the entity template
  of generate_domain.py) is embedded verbatim.
-/

namespace PyStr

/-- Codepoints of a Lean string literal, used to write concrete Python
strings in the codepoint model. -/
def strCodes (s : String) : List Nat :=
  s.toList.map Char.toNat

/-- ASCII model of Python `str.lower` on one codepoint. -/
def lowerCode (n : Nat) : Nat :=
  if 65 ≤ n ∧ n ≤ 90 then n + 32 else n

/-- Model of Python `str.lower`. -/
def pyLower (l : List Nat) : List Nat :=
  l.map lowerCode

/-- ASCII whitespace stripped by Python `str.strip`. -/
def isSpace (n : Nat) : Bool :=
  n == 32 || n == 9 || n == 10 || n == 11 || n == 12 || n == 13

/-- Remove leading whitespace. -/
def ltrim (l : List Nat) : List Nat :=
  l.dropWhile isSpace

/-- Remove trailing whitespace. -/
def rtrim (l : List Nat) : List Nat :=
  (l.reverse.dropWhile isSpace).reverse

/-- Model of Python `str.strip`. -/
def pyStrip (l : List Nat) : List Nat :=
  rtrim (ltrim l)

end PyStr

namespace GoTypeMapper

open PyStr

/-- Static table of `GoTypeMapper.TYPE_MAP` from gin-developer helpers.py,
keys and values as codepoint lists. -/
def TYPE_MAP : List (List Nat × List Nat) :=
  [ (strCodes "string", strCodes "string"),
    (strCodes "str", strCodes "string"),
    (strCodes "text", strCodes "string"),
    (strCodes "int", strCodes "int"),
    (strCodes "integer", strCodes "int"),
    (strCodes "int32", strCodes "int32"),
    (strCodes "int64", strCodes "int64"),
    (strCodes "uint", strCodes "uint"),
    (strCodes "uint32", strCodes "uint32"),
    (strCodes "uint64", strCodes "uint64"),
    (strCodes "float", strCodes "float64"),
    (strCodes "float32", strCodes "float32"),
    (strCodes "float64", strCodes "float64"),
    (strCodes "decimal", strCodes "float64"),
    (strCodes "number", strCodes "float64"),
    (strCodes "bool", strCodes "bool"),
    (strCodes "boolean", strCodes "bool"),
    (strCodes "time", strCodes "time.Time"),
    (strCodes "datetime", strCodes "time.Time"),
    (strCodes "timestamp", strCodes "time.Time"),
    (strCodes "date", strCodes "time.Time"),
    (strCodes "uuid", strCodes "uuid.UUID"),
    (strCodes "guid", strCodes "uuid.UUID"),
    (strCodes "bytes", strCodes "[]byte"),
    (strCodes "binary", strCodes "[]byte") ]

/-- Python substring test `pat in text`. -/
def containsSub (pat text : List Nat) : Bool :=
  (List.range (text.length + 1)).any fun i => pat.isPrefixOf (text.drop i)

/-- The import computation at the end of `map_type`:
`if time.Time in go_type ... elif uuid.UUID in go_type ...`. -/
def importsFor (go : List Nat) : List String :=
  if containsSub (strCodes "time.Time") go then ["time"]
  else if containsSub (strCodes "uuid.UUID") go then ["github.com/google/uuid"]
  else []

/-- Fuelled model of `GoTypeMapper.map_type`; codepoints 91, 93, 42 are
the characters of the `[]` and `*` modifiers.  The fuel only bounds the
recursion depth; `map_typeF_congr` below shows any fuel above the string
length gives the same answer. -/
def map_typeF : Nat → List Nat → List Nat × List String
  | 0, _ => ([], [])
  | fuel + 1, s =>
    let t := pyStrip (pyLower s)
    if t.take 2 = [91, 93] then
      let p := map_typeF fuel (t.drop 2)
      (91 :: 93 :: p.1, p.2)
    else if t.take 1 = [42] then
      let p := map_typeF fuel (t.drop 1)
      (42 :: p.1, p.2)
    else
      let go := (TYPE_MAP.lookup t).getD (strCodes "string")
      (go, importsFor go)

/-- Model of `GoTypeMapper.map_type`: the fuel `s.length + 1` always suffices. -/
def map_type (s : List Nat) : List Nat × List String :=
  map_typeF (s.length + 1) s

end GoTypeMapper



namespace FS

/-- Filesystem paths as segment lists (`pathlib` components). -/
abbrev Path := List String

/-- Add one directory to the set of existing directories. -/
def addDir (dirs : List Path) (d : Path) : List Path :=
  if d ∈ dirs then dirs else d :: dirs

/-- All prefixes of a path, shortest first. -/
def prefixes (p : Path) : List Path :=
  (List.range (p.length + 1)).map fun i => p.take i

/-- Model of `Path.mkdir(parents=True, exist_ok=True)`: every prefix of the
path becomes an existing directory. -/
def mkdirParents (dirs : List Path) (p : Path) : List Path :=
  (prefixes p).foldl addDir dirs

/-- A plain file write succeeds exactly when the parent directory exists. -/
def canWrite (dirs : List Path) (file : Path) : Bool :=
  decide (file.dropLast ∈ dirs)

end FS

namespace GenDomain

/-- ASCII whitespace for Python `str.strip` at the `Char` level. -/
def isSpaceChar (c : Char) : Bool :=
  c == ' ' || c == '\t' || c == '\n' || c == '\r' || c == '\x0b' || c == '\x0c'

/-- Python `str.strip` on a character list. -/
def stripChars (l : List Char) : List Char :=
  ((l.dropWhile isSpaceChar).reverse.dropWhile isSpaceChar).reverse

/-- Python `str.strip` on strings. -/
def pyStripStr (s : String) : String :=
  String.mk (stripChars s.toList)

/-- Python `str.lower` on strings (ASCII model). -/
def pyLowerStr (s : String) : String :=
  String.mk (s.toList.map Char.toLower)

/-- Python `str.split(sep)` worker: `cur` holds the current token reversed. -/
def splitAux (sep : Char) : List Char → List Char → List (List Char)
  | [], cur => [cur.reverse]
  | c :: rest, cur =>
    if c == sep then cur.reverse :: splitAux sep rest []
    else splitAux sep rest (c :: cur)

/-- Python `str.split(sep)` for a one-character separator. -/
def pySplit (sep : Char) (s : String) : List String :=
  (splitAux sep s.toList []).map String.mk

/-- Python `str.split(sep, 1)`, returning `none` when the separator is
absent (used to model the `if sep not in s: continue` guard). -/
def splitFirst (sep : Char) : List Char → Option (List Char × List Char)
  | [] => none
  | c :: rest =>
    if c == sep then some ([], rest)
    else (splitFirst sep rest).map fun p => (c :: p.1, p.2)

/-- Version of `splitFirst` on strings. -/
def pySplitFirst (sep : Char) (s : String) : Option (String × String) :=
  (splitFirst sep s.toList).map fun p => (String.mk p.1, String.mk p.2)

/-- The `Field` entity of generate_domain.py: constructor arguments only;
the derived attributes are the functions below. -/
structure Field where
  name : String
  field_type : String
deriving DecidableEq

/-- The `type_mapping` dict inside `Field._map_type`. -/
def type_mapping : List (String × String) :=
  [ ("string", "string"),
    ("int", "int"),
    ("int64", "int64"),
    ("float64", "float64"),
    ("bool", "bool"),
    ("time", "time.Time"),
    ("uuid", "uuid.UUID") ]

/-- Model of `Field._map_type`: dictionary lookup on the lowercased type with the
default `"string"`. -/
def Field.go_type (f : Field) : String :=
  (type_mapping.lookup (pyLowerStr f.field_type)).getD "string"

/-- Worker of `to_snake_case`: the flag says whether we are at index 0. -/
def snakeAux : Bool → List Char → List Char
  | _, [] => []
  | first, c :: rest =>
    (if c.isUpper && !first then ['_', c.toLower] else [c.toLower]) ++ snakeAux false rest

/-- Model of `to_snake_case` of generate_domain.py (the module-level function and the
identical `Field._to_snake_case` method). -/
def to_snake_case (s : String) : String :=
  String.mk (snakeAux true s.toList)

/-- The `Field.json_tag` attribute. -/
def Field.json_tag (f : Field) : String :=
  to_snake_case f.name

/-- Model of `Field._generate_gorm_tag`. -/
def Field.gorm_tag (f : Field) : String :=
  if f.field_type = "string" then "type:varchar(255)"
  else if f.field_type = "int" ∨ f.field_type = "int64" then "type:bigint"
  else if f.field_type = "float64" then "type:decimal(10,2)"
  else if f.field_type = "bool" then "type:boolean;default:false"
  else if f.field_type = "time" then "type:timestamp"
  else if f.field_type = "uuid" then "type:uuid"
  else ""

/-- Python `str.capitalize`: first character upper-cased, the rest lowered. -/
def pyCapitalize (s : String) : String :=
  match s.toList with
  | [] => ""
  | c :: rest => String.mk (c.toUpper :: rest.map Char.toLower)

/-- Model of `Field.to_struct_field`. -/
def Field.to_struct_field (f : Field) : String :=
  "\t" ++ pyCapitalize f.name ++ " " ++ f.go_type ++ " `json:\"" ++ f.json_tag ++
    "\" gorm:\"" ++ f.gorm_tag ++ "\"`"

/-- Model of `parse_fields` of generate_domain.py. -/
def parse_fields (fields_str : String) : List Field :=
  if fields_str = "" then []
  else
    (pySplit ',' fields_str).filterMap fun fd =>
      let fd := pyStripStr fd
      match pySplitFirst ':' fd with
      | none => none
      | some (n, ft) => some ⟨pyStripStr n, pyStripStr ft⟩

/-- Module-level `capitalize`: first character upper-cased, rest unchanged. -/
def capitalize (s : String) : String :=
  match s.toList with
  | [] => s
  | c :: rest => String.mk (c.toUpper :: rest)

/-- The `needs_time` flag in `generate_entity`. -/
def entity_needs_time (fields : List Field) : Bool :=
  fields.any fun f => f.field_type == "time"

/-- The `needs_uuid` flag in `generate_entity`. -/
def entity_needs_uuid (fields : List Field) : Bool :=
  fields.any fun f => f.field_type == "uuid"

/-- The `imports` list built in `generate_entity`. -/
def entity_imports (fields : List Field) : List String :=
  (if entity_needs_time fields then ["\t\"time\""] else []) ++
    (if entity_needs_uuid fields then ["\t\"github.com/google/uuid\""] else [])

/-- The `import_block` string built in `generate_entity`. -/
def entity_import_block (fields : List Field) : String :=
  if entity_imports fields = [] then ""
  else "import (\n" ++ String.intercalate "\n" (entity_imports fields) ++ "\n)\n\n"

/-- The fixed `CreatedAt`/`UpdatedAt` lines of the entity template. -/
def created_updated_lines : String :=
  "\tCreatedAt time.Time `json:\"created_at\" gorm:\"autoCreateTime\"`\n\tUpdatedAt time.Time `json:\"updated_at\" gorm:\"autoUpdateTime\"`"

/-- Model of `generate_entity` of generate_domain.py.  The f-string of the source is
split at line boundaries (the byte content is unchanged); braces of the Go
template are written with escapes. -/
def generate_entity (domain_name : String) (fields : List Field)
    (module_path : String) : String :=
  let entity_name := capitalize domain_name
  let fields_str := String.intercalate "\n" (fields.map Field.to_struct_field)
  "package entity\n\n" ++ entity_import_block fields ++ "type " ++ entity_name ++
    " struct \x7b\n\tID        uint   `json:\"id\" gorm:\"primaryKey\"`\n" ++
    fields_str ++ "\n" ++ created_updated_lines ++ "\n\x7d\n\nfunc (e *" ++
    entity_name ++ ") TableName() string \x7b\n\treturn \"" ++
    to_snake_case domain_name ++ "s\"\n\x7d\n"

/-- Destination paths of the five writes of `main` in generate_domain.py,
in program order (entity, repository interface, repository implementation,
use case, handler). -/
def domain_write_paths (project_path : FS.Path) (domain_name : String) :
    List FS.Path :=
  [ project_path ++ ["internal", "domain", "entity", domain_name ++ ".go"],
    project_path ++ ["internal", "domain", "repository", domain_name ++ "_repository.go"],
    project_path ++ ["internal", "infrastructure", "repository", domain_name ++ "_repository.go"],
    project_path ++ ["internal", "usecase", domain_name ++ "_usecase.go"],
    project_path ++ ["internal", "handler", domain_name ++ "_handler.go"] ]

/-- Filesystem effect of `main` in generate_domain.py: the script performs
no `mkdir` at all, so each write succeeds only against the pre-existing
directories (`args.domain_name.lower()` is the name used in paths). -/
def generate_domain_fs (dirs0 : List FS.Path) (project_path : FS.Path)
    (domain_name : String) : List Bool :=
  (domain_write_paths project_path (pyLowerStr domain_name)).map (FS.canWrite dirs0)

end GenDomain

namespace AddInfra

/-- The `SUPPORTED_TYPES` dict of add_infrastructure.py, in dict order. -/
def SUPPORTED_TYPES : List (String × List String) :=
  [ ("storage", ["local", "s3", "gcs"]),
    ("cache", ["redis", "memory"]),
    ("queue", ["redis", "kafka", "rabbitmq"]),
    ("email", ["smtp", "sendgrid"]) ]

/-- Tags for the template-producing functions of add_infrastructure.py.
Their Go bodies are never inspected by a claim, only which one is chosen
and where it is written. -/
inductive GoTemplate
  | storageInterface
  | storageLocal
  | storageS3
  | storageGcs
  | cacheInterface
  | cacheRedis
  | cacheMemory
deriving DecidableEq

/-- The interface/implementation selection of `create_infrastructure`:
the nested if/elif dispatch on `infra_type` and `provider`.  `none` models
the Python `None` initialisation that survives when no branch assigns. -/
def infra_contents (infra_type provider : String) :
    Option GoTemplate × Option GoTemplate :=
  if infra_type = "storage" then
    ( some GoTemplate.storageInterface,
      if provider = "local" then some GoTemplate.storageLocal
      else if provider = "s3" then some GoTemplate.storageS3
      else if provider = "gcs" then some GoTemplate.storageGcs
      else none )
  else if infra_type = "cache" then
    ( some GoTemplate.cacheInterface,
      if provider = "redis" then some GoTemplate.cacheRedis
      else if provider = "memory" then some GoTemplate.cacheMemory
      else none )
  else (none, none)

/-- Model of `get_dependencies` of add_infrastructure.py. -/
def get_dependencies (infra_type provider : String) : List String :=
  if infra_type = "storage" ∧ provider = "s3" then
    [ "github.com/aws/aws-sdk-go-v2/aws",
      "github.com/aws/aws-sdk-go-v2/config",
      "github.com/aws/aws-sdk-go-v2/credentials",
      "github.com/aws/aws-sdk-go-v2/service/s3" ]
  else if infra_type = "storage" ∧ provider = "gcs" then
    ["cloud.google.com/go/storage"]
  else if infra_type = "cache" ∧ provider = "redis" then
    ["github.com/redis/go-redis/v9"]
  else if infra_type = "queue" ∧ provider = "redis" then
    ["github.com/redis/go-redis/v9"]
  else if infra_type = "queue" ∧ provider = "kafka" then
    ["github.com/segmentio/kafka-go"]
  else if infra_type = "queue" ∧ provider = "rabbitmq" then
    ["github.com/rabbitmq/amqp091-go"]
  else if infra_type = "email" ∧ provider = "sendgrid" then
    ["github.com/sendgrid/sendgrid-go"]
  else []

/-- Observable outcome of one `create_infrastructure` call: directories
created, files written (path and which template), lines printed (progress
headers and usage examples are abbreviated away; the unsupported-combination
message and the dependency lines are kept verbatim). -/
structure InfraOutcome where
  mkdirs : List FS.Path
  writes : List (FS.Path × GoTemplate)
  messages : List String
deriving DecidableEq

/-- Model of `create_infrastructure` of add_infrastructure.py.  The directory is
created before the unsupported-combination check, exactly as in the source;
on an unsupported combination the function prints and returns having written
no file. -/
def create_infrastructure (project_path : FS.Path) (infra_type provider : String) :
    InfraOutcome :=
  let infra_dir := project_path ++ ["internal", "infrastructure", infra_type]
  match infra_contents infra_type provider with
  | (some iface, some impl) =>
    let deps := get_dependencies infra_type provider
    { mkdirs := [infra_dir],
      writes :=
        [ (infra_dir ++ [infra_type ++ ".go"], iface),
          (infra_dir ++ [provider ++ ".go"], impl) ],
      messages :=
        [ "✓ Created " ++ infra_type ++ "/" ++ infra_type ++ ".go (interface)",
          "✓ Created " ++ infra_type ++ "/" ++ provider ++ ".go (implementation)" ] ++
        (if deps = [] then []
         else ["📦 Required dependencies:"] ++ deps.map (fun d => "   - " ++ d) ++
           ["Run: go get " ++ String.intercalate " " deps]) }
  | _ =>
    { mkdirs := [infra_dir],
      writes := [],
      messages := ["✗ Unsupported combination: " ++ infra_type ++ "/" ++ provider] }

/-- Exit status of `main` in add_infrastructure.py as a function of the
flags and of the two filesystem preconditions.  argparse rejects a `--type`
outside `choices` with status 2; the explicit validations exit 1;
`create_infrastructure` always returns, so the interpreter then exits 0. -/
def main_exit (infra_type provider : String) (pathExists goModExists : Bool) : Nat :=
  match SUPPORTED_TYPES.lookup infra_type with
  | none => 2
  | some providers =>
    if provider ∉ providers then 1
    else if !pathExists then 1
    else if !goModExists then 1
    else 0

/-- Filesystem effect of `create_infrastructure`: parents are made first,
then the two writes are attempted. -/
def create_infrastructure_fs (dirs0 : List FS.Path) (project_path : FS.Path)
    (infra_type provider : String) : List Bool :=
  let out := create_infrastructure project_path infra_type provider
  let dirs := out.mkdirs.foldl FS.mkdirParents dirs0
  out.writes.map fun w => FS.canWrite dirs w.1

end AddInfra

namespace Components

/-- The component-type discriminators appearing in the two
generate_component.py catalogs. -/
inductive ComponentGen
  | basic
  | children
  | state
  | form
  | card
  | list
  | modal
deriving DecidableEq

/-- The `generators` dict of react-developer generate_component.py. -/
def react_generators : List (String × ComponentGen) :=
  [ ("basic", ComponentGen.basic),
    ("children", ComponentGen.children),
    ("state", ComponentGen.state),
    ("form", ComponentGen.form),
    ("card", ComponentGen.card),
    ("list", ComponentGen.list) ]

/-- The `choices` list of the react-developer argparse `--type` flag. -/
def react_choices : List String :=
  ["basic", "children", "state", "form", "card", "list"]

/-- The generator selection of react-developer `create_component`:
`generators.get(component_type, generate_basic_component)`. -/
def react_select (component_type : String) : ComponentGen :=
  (react_generators.lookup component_type).getD ComponentGen.basic

/-- Outcome of react-developer `create_component`: whether it returns True
and which generator produced the written file.  `fileExists` and
`overwriteYes` model the interactive overwrite prompt. -/
def react_create_component (component_type : String)
    (fileExists overwriteYes : Bool) : Bool × ComponentGen :=
  if fileExists && !overwriteYes then (false, react_select component_type)
  else (true, react_select component_type)

/-- Exit status of react-developer generate_component.py `main`. -/
def react_main_exit (component_type : String)
    (pathExists pkgJsonExists fileExists overwriteYes : Bool) : Nat :=
  if component_type ∉ react_choices then 2
  else if !pathExists then 1
  else if !pkgJsonExists then 1
  else if (react_create_component component_type fileExists overwriteYes).1 then 0
  else 1

/-- The `generators` dict of monorepo-developer generate_component.py. -/
def mono_generators : List (String × ComponentGen) :=
  [ ("basic", ComponentGen.basic),
    ("children", ComponentGen.children),
    ("state", ComponentGen.state),
    ("form", ComponentGen.form),
    ("card", ComponentGen.card),
    ("list", ComponentGen.list),
    ("modal", ComponentGen.modal) ]

/-- The generator selection of monorepo-developer `create_component`:
`if component_type not in generators: ... return False`. -/
def mono_create_component (component_type : String) : Option ComponentGen :=
  mono_generators.lookup component_type

/-- Exit status of monorepo-developer generate_component.py `main` once a
frontend package was found: `create_component` returning False exits 1. -/
def mono_main_exit (component_type : String) : Nat :=
  if (mono_create_component component_type).isNone then 1 else 0

/-- The react-developer export line (export * from ./Name plus newline). -/
def react_export_line (pascal_name : String) : String :=
  "export * from \x27./" ++ pascal_name ++ "\x27\n"

/-- Python substring test `pat in text` on strings. -/
def strContains (pat text : String) : Bool :=
  (List.range (text.toList.length + 1)).any fun i =>
    pat.toList.isPrefixOf (text.toList.drop i)

/-- The index.ts update of react-developer `create_component` (and
`generate_hook.py`): `existing` is the current file content, `none` when
index.ts does not exist; appends only when the line is not a substring. -/
def react_index_update (existing : Option String) (pascal_name : String) : String :=
  let line := react_export_line pascal_name
  match existing with
  | none => line
  | some content => if strContains line content then content else content ++ line

/-- The monorepo-developer export line. -/
def mono_export_line (pascal_name : String) : String :=
  "export \x7b " ++ pascal_name ++ " \x7d from \x27./" ++ pascal_name ++ "\x27\n"

/-- The index.ts update of monorepo-developer `create_component`: the else
branch opens the file in append mode unconditionally. -/
def mono_index_update (existing : Option String) (pascal_name : String) : String :=
  match existing with
  | none => mono_export_line pascal_name
  | some content => content ++ mono_export_line pascal_name

/-- Number of occurrences of `pat` as a substring of `text`, counted by
start position (one candidate start per suffix of `text`). -/
def countOccur (pat : List Char) : List Char → Nat
  | [] => if pat.isPrefixOf [] then 1 else 0
  | text@(_ :: rest) => (if pat.isPrefixOf text then 1 else 0) + countOccur pat rest

end Components

namespace PyStr

theorem lowerCode_idem (n : Nat) : lowerCode (lowerCode n) = lowerCode n := by
  unfold lowerCode
  split_ifs <;> omega

theorem pyLower_idem (l : List Nat) : pyLower (pyLower l) = pyLower l := by
  unfold pyLower
  rw [List.map_map]
  exact List.map_congr_left fun n _ => lowerCode_idem n

theorem isSpace_lowerCode (n : Nat) : isSpace (lowerCode n) = isSpace n := by
  unfold lowerCode
  split
  · rename_i h
    have h1 : isSpace (n + 32) = false := by
      simp only [isSpace, Bool.or_eq_false_iff, beq_eq_false_iff_ne, ne_eq]
      omega
    have h2 : isSpace n = false := by
      simp only [isSpace, Bool.or_eq_false_iff, beq_eq_false_iff_ne, ne_eq]
      omega
    rw [h1, h2]
  · rfl

theorem isSpace_comp_lowerCode : isSpace ∘ lowerCode = isSpace := by
  funext n
  exact isSpace_lowerCode n

theorem pyLower_ltrim (l : List Nat) : pyLower (ltrim l) = ltrim (pyLower l) := by
  unfold pyLower ltrim
  rw [List.dropWhile_map, isSpace_comp_lowerCode]

theorem pyLower_rtrim (l : List Nat) : pyLower (rtrim l) = rtrim (pyLower l) := by
  unfold pyLower rtrim
  rw [List.map_reverse, ← List.map_reverse lowerCode l, List.dropWhile_map,
    isSpace_comp_lowerCode]

theorem dropWhile_dropWhile (p : α → Bool) (l : List α) :
    List.dropWhile p (List.dropWhile p l) = List.dropWhile p l := by
  induction l with
  | nil => rfl
  | cons a t ih =>
    by_cases h : p a
    · simp [List.dropWhile_cons, h, ih]
    · simp [List.dropWhile_cons, h]

theorem rtrim_idem (l : List Nat) : rtrim (rtrim l) = rtrim l := by
  unfold rtrim
  rw [List.reverse_reverse, dropWhile_dropWhile]

theorem rtrim_singleton (a : Nat) : rtrim [a] = if isSpace a then [] else [a] := by
  unfold rtrim
  by_cases h : isSpace a <;> simp [List.dropWhile, h]

theorem rtrim_cons_aux (a : Nat) (l : List Nat) :
    rtrim (a :: l) = if rtrim l = [] then rtrim [a] else a :: rtrim l := by
  have hrev : (a :: l).reverse = l.reverse ++ [a] := by simp
  unfold rtrim
  rw [hrev, List.dropWhile_append]
  by_cases h : l.reverse.dropWhile isSpace = []
  · have h1 : (l.reverse.dropWhile isSpace).isEmpty = true := by simp [h]
    have h2 : (l.reverse.dropWhile isSpace).reverse = [] := by simp [h]
    simp only [h1, if_true, h2, if_pos]
    simp
  · have h1 : (l.reverse.dropWhile isSpace).isEmpty = false := by
      cases hx : l.reverse.dropWhile isSpace with
      | nil => exact absurd hx h
      | cons b m => rfl
    have h2 : ¬((l.reverse.dropWhile isSpace).reverse = []) := by simpa using h
    simp only [h1, Bool.false_eq_true, if_false, if_neg h2, List.reverse_append,
      List.reverse_cons, List.reverse_nil, List.nil_append, List.singleton_append]

theorem rtrim_cons_of_space (a : Nat) (l : List Nat) (h : isSpace a = true) :
    rtrim (a :: l) = if rtrim l = [] then [] else a :: rtrim l := by
  rw [rtrim_cons_aux, rtrim_singleton, h]
  simp

theorem rtrim_cons_of_not_space (a : Nat) (l : List Nat) (h : isSpace a = false) :
    rtrim (a :: l) = a :: rtrim l := by
  rw [rtrim_cons_aux, rtrim_singleton, h]
  split
  · rename_i h2
    rw [h2]
    simp
  · rfl

theorem ltrim_cons_of_not_space (a : Nat) (l : List Nat) (h : isSpace a = false) :
    ltrim (a :: l) = a :: l := by
  unfold ltrim
  simp [List.dropWhile_cons, h]

theorem ltrim_cons_of_space (a : Nat) (l : List Nat) (h : isSpace a = true) :
    ltrim (a :: l) = ltrim l := by
  unfold ltrim
  simp [List.dropWhile_cons, h]

theorem rtrim_eq_nil_iff (l : List Nat) : rtrim l = [] ↔ ∀ a ∈ l, isSpace a := by
  unfold rtrim
  rw [List.reverse_eq_nil_iff, List.dropWhile_eq_nil_iff]
  simp

theorem ltrim_eq_nil_iff (l : List Nat) : ltrim l = [] ↔ ∀ a ∈ l, isSpace a := by
  unfold ltrim
  rw [List.dropWhile_eq_nil_iff]

theorem ltrim_rtrim (l : List Nat) : ltrim (rtrim l) = rtrim (ltrim l) := by
  induction l with
  | nil => rfl
  | cons a t ih =>
    by_cases h : isSpace a
    · rw [rtrim_cons_of_space a t h, ltrim_cons_of_space a t h]
      by_cases h2 : rtrim t = []
      · have h3 : rtrim (ltrim t) = [] := by
          rw [rtrim_eq_nil_iff] at h2 ⊢
          intro x hx
          exact h2 x ((List.dropWhile_sublist isSpace).subset hx)
        rw [if_pos h2, h3]
        rfl
      · rw [if_neg h2, ltrim_cons_of_space a (rtrim t) h, ih]
    · have h' : isSpace a = false := by simpa using h
      rw [rtrim_cons_of_not_space a t h', ltrim_cons_of_not_space a t h',
        ltrim_cons_of_not_space a (rtrim t) h', rtrim_cons_of_not_space a t h']

theorem pyStrip_rtrim_pyLower (t : List Nat) :
    pyStrip (pyLower (rtrim (pyLower t))) = pyStrip (pyLower t) := by
  unfold pyStrip
  rw [pyLower_rtrim, pyLower_idem, ltrim_rtrim, rtrim_idem]

theorem length_ltrim_le (l : List Nat) : (ltrim l).length ≤ l.length := by
  unfold ltrim
  induction l with
  | nil => simp
  | cons a t ih =>
    rw [List.dropWhile_cons]
    split
    · simp only [List.length_cons]
      omega
    · simp

theorem length_rtrim_le (l : List Nat) : (rtrim l).length ≤ l.length := by
  unfold rtrim
  rw [List.length_reverse]
  have := length_ltrim_le l.reverse
  unfold ltrim at this
  simpa using this

theorem length_pyStrip_le (l : List Nat) : (pyStrip l).length ≤ l.length := by
  unfold pyStrip
  calc (rtrim (ltrim l)).length ≤ (ltrim l).length := length_rtrim_le _
    _ ≤ l.length := length_ltrim_le l

theorem length_pyLower (l : List Nat) : (pyLower l).length = l.length := by
  unfold pyLower
  exact List.length_map l lowerCode

end PyStr

namespace GoTypeMapper

open PyStr

theorem map_typeF_congr : ∀ (f1 f2 : Nat) (s1 s2 : List Nat),
    s1.length < f1 → s2.length < f2 →
    pyStrip (pyLower s1) = pyStrip (pyLower s2) →
    map_typeF f1 s1 = map_typeF f2 s2 := by
  intro f1
  induction f1 with
  | zero => intro f2 s1 s2 h1 _ _; omega
  | succ f ih =>
    intro f2 s1 s2 h1 h2 heq
    cases f2 with
    | zero => omega
    | succ g =>
      have hts1 : (pyStrip (pyLower s1)).length ≤ s1.length := by
        calc (pyStrip (pyLower s1)).length ≤ (pyLower s1).length := length_pyStrip_le _
          _ = s1.length := length_pyLower s1
      have hts2 : (pyStrip (pyLower s2)).length ≤ s2.length := by
        calc (pyStrip (pyLower s2)).length ≤ (pyLower s2).length := length_pyStrip_le _
          _ = s2.length := length_pyLower s2
      rw [heq] at hts1
      simp only [map_typeF]
      rw [heq]
      by_cases hA : (pyStrip (pyLower s2)).take 2 = [91, 93]
      · rw [if_pos hA, if_pos hA]
        have hlen2 : 2 ≤ (pyStrip (pyLower s2)).length := by
          have := congrArg List.length hA
          simp only [List.length_take, List.length_cons, List.length_nil] at this
          omega
        have hd : ((pyStrip (pyLower s2)).drop 2).length = (pyStrip (pyLower s2)).length - 2 := by
          simp [List.length_drop]
        rw [ih g _ _ (by omega) (by omega) rfl]
      · rw [if_neg hA, if_neg hA]
        by_cases hS : (pyStrip (pyLower s2)).take 1 = [42]
        · rw [if_pos hS, if_pos hS]
          have hlen1 : 1 ≤ (pyStrip (pyLower s2)).length := by
            have := congrArg List.length hS
            simp only [List.length_take, List.length_cons, List.length_nil] at this
            omega
          have hd : ((pyStrip (pyLower s2)).drop 1).length = (pyStrip (pyLower s2)).length - 1 := by
            simp [List.length_drop]
          rw [ih g _ _ (by omega) (by omega) rfl]
        · rw [if_neg hS, if_neg hS]

theorem pyStrip_pyLower_arr (t : List Nat) :
    pyStrip (pyLower (91 :: 93 :: t)) = 91 :: 93 :: rtrim (pyLower t) := by
  have l91 : lowerCode 91 = 91 := by decide
  have l93 : lowerCode 93 = 93 := by decide
  have s91 : isSpace 91 = false := by decide
  have s93 : isSpace 93 = false := by decide
  show pyStrip (List.map lowerCode (91 :: 93 :: t)) = _
  rw [List.map_cons, List.map_cons, l91, l93]
  unfold pyStrip
  rw [ltrim_cons_of_not_space 91 _ s91]
  rw [rtrim_cons_of_not_space 91 _ s91, rtrim_cons_of_not_space 93 _ s93]
  rfl

theorem pyStrip_pyLower_star (t : List Nat) :
    pyStrip (pyLower (42 :: t)) = 42 :: rtrim (pyLower t) := by
  have l42 : lowerCode 42 = 42 := by decide
  have s42 : isSpace 42 = false := by decide
  show pyStrip (List.map lowerCode (42 :: t)) = _
  rw [List.map_cons, l42]
  unfold pyStrip
  rw [ltrim_cons_of_not_space 42 _ s42, rtrim_cons_of_not_space 42 _ s42]
  rfl

end GoTypeMapper

namespace GoTypeMapper

open PyStr

theorem map_typeF_succ (fuel : Nat) (s : List Nat) :
    map_typeF (fuel + 1) s =
      (if (pyStrip (pyLower s)).take 2 = [91, 93] then
        ((91 :: 93 :: (map_typeF fuel ((pyStrip (pyLower s)).drop 2)).1),
          (map_typeF fuel ((pyStrip (pyLower s)).drop 2)).2)
      else if (pyStrip (pyLower s)).take 1 = [42] then
        ((42 :: (map_typeF fuel ((pyStrip (pyLower s)).drop 1)).1),
          (map_typeF fuel ((pyStrip (pyLower s)).drop 1)).2)
      else
        ((TYPE_MAP.lookup (pyStrip (pyLower s))).getD (strCodes "string"),
          importsFor ((TYPE_MAP.lookup (pyStrip (pyLower s))).getD (strCodes "string")))) :=
  rfl

theorem map_type_length_le_congr (t : List Nat) (f : Nat) (h : t.length < f) :
    map_typeF f t = map_type t :=
  map_typeF_congr f (t.length + 1) t t h (by omega) rfl

theorem map_type_arr (t : List Nat) :
    map_type (91 :: 93 :: t) = (91 :: 93 :: (map_type t).1, (map_type t).2) := by
  show map_typeF ((91 :: 93 :: t).length + 1) (91 :: 93 :: t) = _
  have hlen : (91 :: 93 :: t).length = t.length + 2 := by simp
  rw [hlen, map_typeF_succ, pyStrip_pyLower_arr]
  have htake : (91 :: 93 :: rtrim (pyLower t)).take 2 = [91, 93] := rfl
  rw [if_pos htake]
  have hdrop : (91 :: 93 :: rtrim (pyLower t)).drop 2 = rtrim (pyLower t) := rfl
  rw [hdrop]
  have hle : (rtrim (pyLower t)).length ≤ t.length := by
    calc (rtrim (pyLower t)).length ≤ (pyLower t).length := length_rtrim_le _
      _ = t.length := length_pyLower t
  have hcongr : map_typeF (t.length + 2) (rtrim (pyLower t)) = map_type t := by
    rw [map_typeF_congr (t.length + 2) (t.length + 1) (rtrim (pyLower t)) t
      (by omega) (by omega) (pyStrip_rtrim_pyLower t)]
    rfl
  rw [hcongr]

theorem map_type_star (t : List Nat) :
    map_type (42 :: t) = (42 :: (map_type t).1, (map_type t).2) := by
  show map_typeF ((42 :: t).length + 1) (42 :: t) = _
  have hlen : (42 :: t).length = t.length + 1 := by simp
  rw [hlen, map_typeF_succ, pyStrip_pyLower_star]
  have hA : ¬ ((42 :: rtrim (pyLower t)).take 2 = [91, 93]) := by simp
  rw [if_neg hA]
  have hS : (42 :: rtrim (pyLower t)).take 1 = [42] := rfl
  rw [if_pos hS]
  have hdrop : (42 :: rtrim (pyLower t)).drop 1 = rtrim (pyLower t) := rfl
  rw [hdrop]
  have hle : (rtrim (pyLower t)).length ≤ t.length := by
    calc (rtrim (pyLower t)).length ≤ (pyLower t).length := length_rtrim_le _
      _ = t.length := length_pyLower t
  have hcongr : map_typeF (t.length + 1) (rtrim (pyLower t)) = map_type t := by
    rw [map_typeF_congr (t.length + 1) (t.length + 1) (rtrim (pyLower t)) t
      (by omega) (by omega) (pyStrip_rtrim_pyLower t)]
    rfl
  rw [hcongr]

end GoTypeMapper
namespace Components

theorem isPrefixOf_self (l : List Char) : l.isPrefixOf l = true := by
  induction l with
  | nil => rfl
  | cons a r ih => simp [List.isPrefixOf, ih]

theorem length_le_of_isPrefixOf :
    ∀ l₁ l₂ : List Char, l₁.isPrefixOf l₂ = true → l₁.length ≤ l₂.length := by
  intro l₁
  induction l₁ with
  | nil => intro l₂ _; simp
  | cons a r ih =>
    intro l₂ h
    cases l₂ with
    | nil => simp [List.isPrefixOf] at h
    | cons b s =>
      simp only [List.isPrefixOf, Bool.and_eq_true] at h
      simp only [List.length_cons, Nat.add_le_add_iff_right]
      exact ih s h.2

theorem countOccur_of_short (pat : List Char) :
    ∀ text : List Char, text.length < pat.length → countOccur pat text = 0 := by
  intro text
  induction text with
  | nil =>
    intro h
    cases pat with
    | nil => simp at h
    | cons a r => rfl
  | cons c rest ih =>
    intro h
    have hnp : pat.isPrefixOf (c :: rest) = false := by
      cases hp : pat.isPrefixOf (c :: rest) with
      | false => rfl
      | true =>
        have hle := length_le_of_isPrefixOf pat (c :: rest) hp
        rw [List.length_cons] at hle h
        omega
    show (if pat.isPrefixOf (c :: rest) then 1 else 0) + countOccur pat rest = 0
    rw [hnp]
    have hrl : rest.length < pat.length := by
      rw [List.length_cons] at h
      omega
    rw [ih hrl]
    rfl

theorem countOccur_self (pat : List Char) (h : pat ≠ []) : countOccur pat pat = 1 := by
  cases pat with
  | nil => exact absurd rfl h
  | cons a r =>
    show (if (a :: r).isPrefixOf (a :: r) then 1 else 0) + countOccur (a :: r) r = 1
    have h1 : (a :: r).isPrefixOf (a :: r) = true := isPrefixOf_self (a :: r)
    rw [h1, countOccur_of_short (a :: r) r (by simp)]
    rfl

theorem strContains_of_suffix (pat c : String) :
    strContains pat (c ++ pat) = true := by
  unfold strContains
  rw [List.any_eq_true]
  refine ⟨c.toList.length, ?_, ?_⟩
  · rw [List.mem_range]
    have : (c ++ pat).toList = c.toList ++ pat.toList := String.data_append c pat
    rw [this, List.length_append]
    omega
  · have : (c ++ pat).toList = c.toList ++ pat.toList := String.data_append c pat
    rw [this, List.drop_left]
    exact isPrefixOf_self _

theorem strContains_self (pat : String) : strContains pat pat = true := by
  unfold strContains
  rw [List.any_eq_true]
  exact ⟨0, by rw [List.mem_range]; omega,
    by rw [List.drop_zero]; exact isPrefixOf_self _⟩

theorem react_index_update_fixes (st : Option String) (p : String) :
    strContains (react_export_line p) (react_index_update st p) = true := by
  unfold react_index_update
  cases st with
  | none => exact strContains_self _
  | some c =>
    by_cases h : strContains (react_export_line p) c = true
    · simp [h]
    · have h' : strContains (react_export_line p) c = false := by
        simpa using h
      simp only [h', Bool.false_eq_true, if_false]
      exact strContains_of_suffix _ c

theorem react_index_update_idem (st : Option String) (p : String) :
    react_index_update (some (react_index_update st p)) p = react_index_update st p := by
  have h := react_index_update_fixes st p
  unfold react_index_update
  rw [show (react_index_update st p) = react_index_update st p from rfl] at h
  simp only [react_index_update] at h ⊢
  rw [h]
  simp

end Components

namespace FS

theorem mem_addDir_self (dirs : List Path) (d : Path) : d ∈ addDir dirs d := by
  unfold addDir
  split
  · assumption
  · exact List.mem_cons_self d dirs

theorem mem_addDir_of_mem (dirs : List Path) (d x : Path) (h : x ∈ dirs) :
    x ∈ addDir dirs d := by
  unfold addDir
  split
  · exact h
  · exact List.mem_cons_of_mem d h

theorem mem_foldl_addDir_of_mem (l : List Path) :
    ∀ (dirs : List Path) (x : Path), x ∈ dirs → x ∈ l.foldl addDir dirs := by
  induction l with
  | nil => intro dirs x h; exact h
  | cons d rest ih =>
    intro dirs x h
    exact ih (addDir dirs d) x (mem_addDir_of_mem dirs d x h)

theorem mem_foldl_addDir_of_mem_list (l : List Path) :
    ∀ (dirs : List Path) (d : Path), d ∈ l → d ∈ l.foldl addDir dirs := by
  induction l with
  | nil => intro dirs d h; cases h
  | cons a rest ih =>
    intro dirs d h
    rcases List.mem_cons.mp h with h | h
    · subst h
      exact mem_foldl_addDir_of_mem rest (addDir dirs d) d (mem_addDir_self dirs d)
    · exact ih (addDir dirs a) d h

theorem self_mem_prefixes (p : Path) : p ∈ prefixes p := by
  unfold prefixes
  rw [List.mem_map]
  exact ⟨p.length, by rw [List.mem_range]; omega, List.take_length p⟩

theorem mem_mkdirParents_self (dirs : List Path) (p : Path) :
    p ∈ mkdirParents dirs p :=
  mem_foldl_addDir_of_mem_list (prefixes p) dirs p (self_mem_prefixes p)

theorem foldl_addDir_of_all_mem (l : List Path) :
    ∀ dirs : List Path, (∀ d ∈ l, d ∈ dirs) → l.foldl addDir dirs = dirs := by
  induction l with
  | nil => intro dirs _; rfl
  | cons a rest ih =>
    intro dirs h
    have ha : addDir dirs a = dirs := by
      unfold addDir
      rw [if_pos (h a (List.mem_cons_self a rest))]
    rw [List.foldl_cons, ha]
    exact ih dirs fun d hd => h d (List.mem_cons_of_mem a hd)

theorem mkdirParents_idem (dirs : List Path) (p : Path) :
    mkdirParents (mkdirParents dirs p) p = mkdirParents dirs p := by
  unfold mkdirParents
  exact foldl_addDir_of_all_mem (prefixes p) _
    fun d hd => mem_foldl_addDir_of_mem_list (prefixes p) dirs d hd

end FS

namespace AddInfra

theorem create_infrastructure_writes_shape (pp : FS.Path) (ty prov : String) :
    (create_infrastructure pp ty prov).mkdirs = [pp ++ ["internal", "infrastructure", ty]] ∧
    ∀ w ∈ (create_infrastructure pp ty prov).writes,
      w.1.dropLast = pp ++ ["internal", "infrastructure", ty] := by
  unfold create_infrastructure
  rcases he : infra_contents ty prov with ⟨oi, om⟩
  cases oi with
  | none =>
    refine ⟨rfl, ?_⟩
    intro w hw
    simp at hw
  | some i =>
    cases om with
    | none =>
      refine ⟨rfl, ?_⟩
      intro w hw
      simp at hw
    | some m =>
      refine ⟨rfl, ?_⟩
      intro w hw
      simp only [List.mem_cons, List.mem_singleton] at hw
      rcases hw with hw | hw | hw
      · rw [hw]
        exact List.dropLast_concat
      · rw [hw]
        exact List.dropLast_concat
      · cases hw

theorem create_infrastructure_fs_all_true (dirs0 : List FS.Path) (pp : FS.Path)
    (ty prov : String) :
    create_infrastructure_fs dirs0 pp ty prov =
      List.replicate (create_infrastructure pp ty prov).writes.length true := by
  obtain ⟨hmk, hwsh⟩ := create_infrastructure_writes_shape pp ty prov
  unfold create_infrastructure_fs
  show List.map
      (fun w => FS.canWrite
        (List.foldl FS.mkdirParents dirs0 (create_infrastructure pp ty prov).mkdirs) w.1)
      (create_infrastructure pp ty prov).writes = _
  rw [hmk]
  rw [List.eq_replicate_iff]
  constructor
  · simp
  · intro b hb
    rw [List.mem_map] at hb
    obtain ⟨w, hw, hcw⟩ := hb
    rw [← hcw]
    show FS.canWrite (List.foldl FS.mkdirParents dirs0 [pp ++ ["internal", "infrastructure", ty]]) w.1 = true
    have hfold : List.foldl FS.mkdirParents dirs0 [pp ++ ["internal", "infrastructure", ty]] =
        FS.mkdirParents dirs0 (pp ++ ["internal", "infrastructure", ty]) := rfl
    rw [hfold]
    unfold FS.canWrite
    rw [hwsh w hw]
    exact decide_eq_true (FS.mem_mkdirParents_self dirs0 _)

end AddInfra

namespace GenDomain

theorem generate_domain_first_write_fails (dirs0 : List FS.Path) (pp : FS.Path)
    (dn : String) (h : pp ++ ["internal", "domain", "entity"] ∉ dirs0) :
    (generate_domain_fs dirs0 pp dn).head? = some false := by
  unfold generate_domain_fs domain_write_paths
  simp only [List.map_cons, List.head?_cons, Option.some.injEq]
  unfold FS.canWrite
  have hsplit : pp ++ ["internal", "domain", "entity", pyLowerStr dn ++ ".go"] =
      (pp ++ ["internal", "domain", "entity"]) ++ [pyLowerStr dn ++ ".go"] := by
    simp [List.append_assoc]
  rw [hsplit, List.dropLast_concat]
  exact decide_eq_false h

end GenDomain

namespace AddInfra

theorem create_infrastructure_unsupported (pp : FS.Path) (ty prov : String)
    (h : (infra_contents ty prov).1 = none ∨ (infra_contents ty prov).2 = none) :
    (create_infrastructure pp ty prov).writes = [] ∧
    ("✗ Unsupported combination: " ++ ty ++ "/" ++ prov) ∈
      (create_infrastructure pp ty prov).messages := by
  unfold create_infrastructure
  rcases he : infra_contents ty prov with ⟨oi, om⟩
  rw [he] at h
  cases oi with
  | none => exact ⟨rfl, List.mem_singleton.mpr rfl⟩
  | some i =>
    cases om with
    | none => exact ⟨rfl, List.mem_singleton.mpr rfl⟩
    | some m =>
      rcases h with h | h <;> simp at h

theorem main_exit_accepted_combo (ty prov : String) (provs : List String)
    (h1 : SUPPORTED_TYPES.lookup ty = some provs) (h2 : prov ∈ provs) :
    main_exit ty prov true true = 0 := by
  unfold main_exit
  rw [h1]
  simp [h2]

end AddInfra

namespace GenDomain

theorem mem_entity_imports_time (fields : List Field) :
    "\t\"time\"" ∈ entity_imports fields ↔ ∃ f ∈ fields, f.field_type = "time" := by
  unfold entity_imports
  by_cases ht : entity_needs_time fields
  · rw [if_pos ht]
    constructor
    · intro _
      unfold entity_needs_time at ht
      rw [List.any_eq_true] at ht
      obtain ⟨f, hf, he⟩ := ht
      exact ⟨f, hf, by simpa using he⟩
    · intro _
      exact List.mem_append_left _ (List.mem_singleton.mpr rfl)
  · rw [if_neg ht, List.nil_append]
    constructor
    · intro hmem
      exfalso
      by_cases hu : entity_needs_uuid fields
      · rw [if_pos hu, List.mem_singleton] at hmem
        exact absurd hmem (by decide)
      · rw [if_neg hu] at hmem
        cases hmem
    · rintro ⟨f, hf, he⟩
      exfalso
      apply ht
      unfold entity_needs_time
      rw [List.any_eq_true]
      exact ⟨f, hf, by simpa using he⟩

theorem generate_entity_has_created_updated (dn mp : String) (fields : List Field) :
    ∃ pre post, generate_entity dn fields mp = pre ++ created_updated_lines ++ post := by
  refine ⟨"package entity\n\n" ++ entity_import_block fields ++ "type " ++ capitalize dn ++
      " struct \x7b\n\tID        uint   `json:\"id\" gorm:\"primaryKey\"`\n" ++
      String.intercalate "\n" (fields.map Field.to_struct_field) ++ "\n",
    "\n\x7d\n\nfunc (e *" ++ capitalize dn ++ ") TableName() string \x7b\n\treturn \"" ++
      to_snake_case dn ++ "s\"\n\x7d\n", ?_⟩
  unfold generate_entity
  simp only [String.append_assoc]

theorem generate_entity_import_block_position (dn mp : String) (fields : List Field) :
    ∃ post, generate_entity dn fields mp =
      "package entity\n\n" ++ entity_import_block fields ++ post := by
  refine ⟨"type " ++ capitalize dn ++
      " struct \x7b\n\tID        uint   `json:\"id\" gorm:\"primaryKey\"`\n" ++
      String.intercalate "\n" (fields.map Field.to_struct_field) ++ "\n" ++
      created_updated_lines ++ "\n\x7d\n\nfunc (e *" ++ capitalize dn ++
      ") TableName() string \x7b\n\treturn \"" ++ to_snake_case dn ++ "s\"\n\x7d\n", ?_⟩
  unfold generate_entity
  simp only [String.append_assoc]

end GenDomain

namespace Components

theorem react_export_line_toList_ne_nil (p : String) :
    (react_export_line p).toList ≠ [] := by
  unfold react_export_line
  intro hnil
  have hl := congrArg List.length hnil
  rw [show (("export * from \x27./" ++ p) ++ "\x27\n").toList
      = ("export * from \x27./".toList ++ p.toList) ++ "\x27\n".toList from rfl] at hl
  rw [List.length_append, List.length_append] at hl
  have h1 : ("export * from \x27./" : String).toList.length = 17 := rfl
  have h2 : ("\x27\n" : String).toList.length = 2 := rfl
  rw [h1, h2] at hl
  simp at hl

theorem react_index_fresh_twice_once (p : String) :
    countOccur (react_export_line p).toList
      ((react_index_update (some (react_index_update none p)) p).toList) = 1 := by
  have h1 : react_index_update none p = react_export_line p := rfl
  have h2 : react_index_update (some (react_export_line p)) p = react_export_line p := by
    unfold react_index_update
    simp [strContains_self]
  rw [h1, h2]
  exact countOccur_self _ (react_export_line_toList_ne_nil p)

end Components

namespace GoTypeMapper

open PyStr

theorem map_type_base_default (t : List Nat)
    (hA : ¬((pyStrip (pyLower t)).take 2 = [91, 93]))
    (hS : ¬((pyStrip (pyLower t)).take 1 = [42]))
    (hU : TYPE_MAP.lookup (pyStrip (pyLower t)) = none) :
    map_type t = (strCodes "string", []) := by
  show map_typeF (t.length + 1) t = _
  rw [map_typeF_succ, if_neg hA, if_neg hS, hU]
  rfl

end GoTypeMapper

open PyStr GoTypeMapper GenDomain AddInfra Components FS in
/-- C1 (amended): the react-developer generator appends its export line to
index.ts only when absent, so a second run changes nothing and a fresh
target holds exactly one occurrence after two runs; the monorepo-developer
generator instead appends unconditionally, so two runs on a fresh target
leave the export line twice. -/
theorem claim_aggregator_append (st : Option String) (p : String) :
    react_index_update (some (react_index_update st p)) p = react_index_update st p ∧
    countOccur (react_export_line p).toList
      ((react_index_update (some (react_index_update none p)) p).toList) = 1 ∧
    mono_index_update (some (mono_index_update none p)) p =
      mono_export_line p ++ mono_export_line p :=
  ⟨react_index_update_idem st p, react_index_fresh_twice_once p, rfl⟩

/-- C1 counterexample: for component name Foo, two runs of the
monorepo-developer generator against the same fresh target leave two
occurrences of the export line in index.ts, not one. -/
theorem claim_aggregator_append_cex :
    Components.countOccur (Components.mono_export_line "Foo").toList
      ((Components.mono_index_update
        (some (Components.mono_index_update none "Foo")) "Foo").toList) = 2 := by
  decide

/-- C1 witness. -/
theorem claim_aggregator_append_witness :
    Components.react_index_update
        (some (Components.react_index_update (some "") "Card")) "Card" =
      Components.react_index_update (some "") "Card" :=
  (claim_aggregator_append (some "") "Card").1

open AddInfra in
/-- C2 (amended): when the argument resolver accepts both flags but no
generator exists for the combination, `create_infrastructure` prints the
unsupported-combination message, writes no file, and returns, so the
process terminates with exit status 0, not 1. -/
theorem claim_resolver_accepted_unsupported_exit
    (pp : FS.Path) (ty prov : String) (provs : List String)
    (h1 : SUPPORTED_TYPES.lookup ty = some provs) (h2 : prov ∈ provs)
    (h3 : (infra_contents ty prov).1 = none ∨ (infra_contents ty prov).2 = none) :
    main_exit ty prov true true = 0 ∧
    (create_infrastructure pp ty prov).writes = [] ∧
    ("✗ Unsupported combination: " ++ ty ++ "/" ++ prov) ∈
      (create_infrastructure pp ty prov).messages :=
  ⟨main_exit_accepted_combo ty prov provs h1 h2,
    (create_infrastructure_unsupported pp ty prov h3).1,
    (create_infrastructure_unsupported pp ty prov h3).2⟩

/-- C2 counterexample: --type=queue --provider=kafka is accepted by the
resolver, has no generator, and the process exits 0, not 1. -/
theorem claim_resolver_accepted_unsupported_exit_cex :
    AddInfra.SUPPORTED_TYPES.lookup "queue" = some ["redis", "kafka", "rabbitmq"] ∧
    AddInfra.infra_contents "queue" "kafka" = (none, none) ∧
    AddInfra.main_exit "queue" "kafka" true true = 0 ∧
    AddInfra.main_exit "queue" "kafka" true true ≠ 1 := by
  decide

/-- C2 witness. -/
theorem claim_resolver_accepted_unsupported_exit_witness :
    AddInfra.main_exit "queue" "kafka" true true = 0 ∧
    (AddInfra.create_infrastructure ["proj"] "queue" "kafka").writes = [] ∧
    ("✗ Unsupported combination: " ++ "queue" ++ "/" ++ "kafka") ∈
      (AddInfra.create_infrastructure ["proj"] "queue" "kafka").messages :=
  claim_resolver_accepted_unsupported_exit ["proj"] "queue" "kafka"
    ["redis", "kafka", "rabbitmq"] (by decide) (by decide) (by decide)

open AddInfra in
/-- C3 (confirmed): any type/provider pair reaching `create_infrastructure`
without a registered generator yields the unsupported-combination message
and writes neither the interface file nor the implementation file. -/
theorem claim_unsupported_combination_no_files (pp : FS.Path) (ty prov : String)
    (h : (infra_contents ty prov).1 = none ∨ (infra_contents ty prov).2 = none) :
    (create_infrastructure pp ty prov).writes = [] ∧
    ("✗ Unsupported combination: " ++ ty ++ "/" ++ prov) ∈
      (create_infrastructure pp ty prov).messages :=
  create_infrastructure_unsupported pp ty prov h

/-- C3 witness: --type=storage --provider=redis. -/
theorem claim_unsupported_combination_no_files_witness :
    (AddInfra.create_infrastructure ["proj"] "storage" "redis").writes = [] ∧
    ("✗ Unsupported combination: " ++ "storage" ++ "/" ++ "redis") ∈
      (AddInfra.create_infrastructure ["proj"] "storage" "redis").messages :=
  claim_unsupported_combination_no_files ["proj"] "storage" "redis" (Or.inr (by decide))

open Components in
/-- C4 (amended): each catalog maps every key to exactly one generator and
the CLI resolvers reject unknown discriminators (argparse choices, exit 2);
the monorepo-developer `create_component` reports unknown types and the
script exits 1, but the react-developer selection silently falls back to
the basic generator instead of erroring. -/
theorem claim_catalog_unknown_key :
    ((react_generators.map Prod.fst).Nodup ∧ (mono_generators.map Prod.fst).Nodup) ∧
    (∀ t, react_generators.lookup t = none →
      react_create_component t false false = (true, ComponentGen.basic)) ∧
    (∀ t, t ∉ react_choices → react_main_exit t true true false false = 2) ∧
    (∀ t, mono_generators.lookup t = none → mono_main_exit t = 1) := by
  refine ⟨⟨by decide, by decide⟩, ?_, ?_, ?_⟩
  · intro t h
    unfold react_create_component react_select
    rw [h]
    rfl
  · intro t h
    unfold react_main_exit
    rw [if_pos h]
  · intro t h
    unfold mono_main_exit mono_create_component
    rw [h]
    rfl

/-- C4 counterexample: the react-developer selection silently substitutes
the basic generator for the unknown discriminator "flurb" and
`create_component` succeeds; nothing is reported and no exit occurs. -/
theorem claim_catalog_unknown_key_cex :
    Components.react_generators.lookup "flurb" = none ∧
    Components.react_select "flurb" = Components.ComponentGen.basic ∧
    Components.react_create_component "flurb" false false =
      (true, Components.ComponentGen.basic) := by
  decide

/-- C4 witness. -/
theorem claim_catalog_unknown_key_witness :
    Components.react_create_component "flurb" false false =
      (true, Components.ComponentGen.basic) ∧
    Components.mono_main_exit "flurb" = 1 :=
  ⟨claim_catalog_unknown_key.2.1 "flurb" (by decide),
    claim_catalog_unknown_key.2.2.2 "flurb" (by decide)⟩

open AddInfra GenDomain FS in
/-- C5 (amended): add_infrastructure.py creates the destination directory
(idempotently, with all parents) before its two writes, so they never fail
for a missing parent; generate_domain.py performs no mkdir at all before
its five writes, so its first write already fails whenever the
conventional entity directory is absent. -/
theorem claim_writer_parent_dirs :
    (∀ (dirs0 : List FS.Path) (pp : FS.Path) (ty prov : String),
      create_infrastructure_fs dirs0 pp ty prov =
        List.replicate (create_infrastructure pp ty prov).writes.length true) ∧
    (∀ (dirs : List FS.Path) (p : FS.Path),
      mkdirParents (mkdirParents dirs p) p = mkdirParents dirs p) ∧
    (∀ (dirs0 : List FS.Path) (pp : FS.Path) (dn : String),
      pp ++ ["internal", "domain", "entity"] ∉ dirs0 →
      (generate_domain_fs dirs0 pp dn).head? = some false) :=
  ⟨create_infrastructure_fs_all_true, mkdirParents_idem,
    generate_domain_first_write_fails⟩

/-- C5 counterexample: with only the project root directory existing, all
five writes of domain generation fail for missing parent directories. -/
theorem claim_writer_parent_dirs_cex :
    GenDomain.generate_domain_fs [["proj"]] ["proj"] "user" =
      [false, false, false, false, false] := by
  decide

/-- C5 witness. -/
theorem claim_writer_parent_dirs_witness :
    AddInfra.create_infrastructure_fs [["proj"]] ["proj"] "cache" "redis" =
      List.replicate
        (AddInfra.create_infrastructure ["proj"] "cache" "redis").writes.length true ∧
    FS.mkdirParents (FS.mkdirParents [] ["a", "b"]) ["a", "b"] =
      FS.mkdirParents [] ["a", "b"] ∧
    (GenDomain.generate_domain_fs [["proj"]] ["proj"] "User").head? = some false :=
  ⟨claim_writer_parent_dirs.1 [["proj"]] ["proj"] "cache" "redis",
    claim_writer_parent_dirs.2.1 [] ["a", "b"],
    claim_writer_parent_dirs.2.2 [["proj"]] ["proj"] "User" (by decide)⟩

open GoTypeMapper PyStr in
/-- C6 (confirmed): for every type string T (as a codepoint list),
`map_type` of `[] ++ T` is the mapping of T with `[]` prepended to the Go
type and the same imports, and likewise `* ++ T` prepends `*`; since T is
arbitrary, the law nests to any depth (codepoints 91, 93, 42 are the
characters `[`, `]`, `*`). -/
theorem claim_map_type_modifier_roundtrip (t : List Nat) :
    map_type (91 :: 93 :: t) = (91 :: 93 :: (map_type t).1, (map_type t).2) ∧
    map_type (42 :: t) = (42 :: (map_type t).1, (map_type t).2) :=
  ⟨map_type_arr t, map_type_star t⟩

open GoTypeMapper PyStr GenDomain in
/-- C7 (amended): a type string whose lowercased, stripped form does not
begin with the `[]` or `*` modifier and is absent from the static table
maps to the default `("string", [])`; `Field._map_type` of
generate_domain.py defaults to "string" for every unknown type; but a
modifier-prefixed unknown type such as `[]foo` maps to the wrapped default
rather than plain "string". -/
theorem claim_unknown_type_defaults :
    (∀ t : List Nat,
      ¬((pyStrip (pyLower t)).take 2 = [91, 93]) →
      ¬((pyStrip (pyLower t)).take 1 = [42]) →
      TYPE_MAP.lookup (pyStrip (pyLower t)) = none →
      map_type t = (strCodes "string", [])) ∧
    (∀ n s : String, type_mapping.lookup (pyLowerStr s) = none →
      Field.go_type ⟨n, s⟩ = "string") := by
  refine ⟨map_type_base_default, ?_⟩
  intro n s h
  unfold Field.go_type
  rw [h]
  rfl

/-- C7 counterexample: "[]foo" is absent from the static table (after
lowercasing and stripping) yet maps to ("[]string", []), not the plain
default ("string", []). -/
theorem claim_unknown_type_defaults_cex :
    GoTypeMapper.TYPE_MAP.lookup
      (PyStr.pyStrip (PyStr.pyLower (PyStr.strCodes "[]foo"))) = none ∧
    GoTypeMapper.map_type (PyStr.strCodes "[]foo") =
      (PyStr.strCodes "[]string", []) ∧
    GoTypeMapper.map_type (PyStr.strCodes "[]foo") ≠
      (PyStr.strCodes "string", []) := by
  decide

/-- C7 witness. -/
theorem claim_unknown_type_defaults_witness :
    GoTypeMapper.map_type (PyStr.strCodes "foo") = (PyStr.strCodes "string", []) ∧
    GenDomain.Field.go_type ⟨"x", "customtype"⟩ = "string" :=
  ⟨claim_unknown_type_defaults.1 (PyStr.strCodes "foo")
      (by decide) (by decide) (by decide),
    claim_unknown_type_defaults.2 "x" "customtype" (by decide)⟩

set_option maxRecDepth 8000 in
open GenDomain in
/-- C8 (confirmed): fields "name:string,age:int,active:bool" parse to three
fields with Go types string, int, bool and snake_case JSON tags name, age,
active, and the generated entity declaration carries exactly those three
user field lines with those tag strings. -/
theorem claim_domain_fields_scenario :
    (parse_fields "name:string,age:int,active:bool").map Field.go_type =
      ["string", "int", "bool"] ∧
    (parse_fields "name:string,age:int,active:bool").map Field.json_tag =
      ["name", "age", "active"] ∧
    (parse_fields "name:string,age:int,active:bool").map Field.to_struct_field =
      [ "\tName string `json:\"name\" gorm:\"type:varchar(255)\"`",
        "\tAge int `json:\"age\" gorm:\"type:bigint\"`",
        "\tActive bool `json:\"active\" gorm:\"type:boolean;default:false\"`" ] ∧
    generate_entity "user" (parse_fields "name:string,age:int,active:bool")
        "github.com/example/app" =
      "package entity\n\ntype User struct \x7b\n\tID        uint   `json:\"id\" gorm:\"primaryKey\"`\n\tName string `json:\"name\" gorm:\"type:varchar(255)\"`\n\tAge int `json:\"age\" gorm:\"type:bigint\"`\n\tActive bool `json:\"active\" gorm:\"type:boolean;default:false\"`\n\tCreatedAt time.Time `json:\"created_at\" gorm:\"autoCreateTime\"`\n\tUpdatedAt time.Time `json:\"updated_at\" gorm:\"autoUpdateTime\"`\n\x7d\n\nfunc (e *User) TableName() string \x7b\n\treturn \"users\"\n\x7d\n" := by
  refine ⟨by decide, by decide, by decide, by decide⟩

open AddInfra in
/-- C9 (confirmed): --type=cache --provider=redis writes exactly the two
files cache/cache.go (interface) and cache/redis.go (implementation) and
the printed dependency list contains github.com/redis/go-redis/v9. -/
theorem claim_cache_redis_two_files (pp : FS.Path) :
    (create_infrastructure pp "cache" "redis").writes =
      [ (pp ++ ["internal", "infrastructure", "cache", "cache.go"],
          GoTemplate.cacheInterface),
        (pp ++ ["internal", "infrastructure", "cache", "redis.go"],
          GoTemplate.cacheRedis) ] ∧
    get_dependencies "cache" "redis" = ["github.com/redis/go-redis/v9"] ∧
    "   - github.com/redis/go-redis/v9" ∈
      (create_infrastructure pp "cache" "redis").messages := by
  refine ⟨?_, by decide, ?_⟩
  · show ((pp ++ ["internal", "infrastructure", "cache"]) ++ ["cache.go"],
        GoTemplate.cacheInterface) ::
      [((pp ++ ["internal", "infrastructure", "cache"]) ++ ["redis.go"],
        GoTemplate.cacheRedis)] = _
    simp
  · have hm : (create_infrastructure pp "cache" "redis").messages =
        [ "✓ Created cache/cache.go (interface)",
          "✓ Created cache/redis.go (implementation)",
          "📦 Required dependencies:",
          "   - github.com/redis/go-redis/v9",
          "Run: go get github.com/redis/go-redis/v9" ] := by
      show ["✓ Created " ++ "cache" ++ "/" ++ "cache" ++ ".go (interface)",
        "✓ Created " ++ "cache" ++ "/" ++ "redis" ++ ".go (implementation)",
        "📦 Required dependencies:",
        "   - " ++ "github.com/redis/go-redis/v9",
        "Run: go get " ++ String.intercalate " " ["github.com/redis/go-redis/v9"]] = _
      decide
    rw [hm]
    decide

open GenDomain in
/-- C10 (confirmed): the generated entity always contains the CreatedAt and
UpdatedAt declarations of Go type time.Time, the file is the fixed header
followed by the import block, and the "time" import line occurs in the
imports exactly when some user-supplied field has declared type "time". -/
theorem claim_entity_time_import (dn mp : String) (fields : List Field) :
    (∃ pre post, generate_entity dn fields mp =
      pre ++ created_updated_lines ++ post) ∧
    (∃ post, generate_entity dn fields mp =
      "package entity\n\n" ++ entity_import_block fields ++ post) ∧
    ("\t\"time\"" ∈ entity_imports fields ↔ ∃ f ∈ fields, f.field_type = "time") :=
  ⟨generate_entity_has_created_updated dn mp fields,
    generate_entity_import_block_position dn mp fields,
    mem_entity_imports_time fields⟩
